import Mathlib

/-!
Verification development for the Car-Parking client's backend integration
layer (src/services/api.ts and the page-level handlers that call it).

The TypeScript source is shallowly embedded: JSON payloads become an
inductive `Json` type, JavaScript truthiness / `typeof` / property access
are modelled explicitly, and each normalization or orchestration function
is translated into a computable Lean function over `Json`.  Thrown
exceptions become `Except String` results.  JavaScript numbers are
modelled as integers (`Int`); `NaN` is modelled as `none` in
`Option Int` results of numeric coercion.  Wall-clock reads
(`new Date().toISOString()`) are passed in as an explicit `now` string.
-/

namespace CarPark

/-- JSON values as delivered by the backend.  `undefined` is represented by
absence (an `Option Json` of `none`), never by a `Json` constructor. -/
inductive Json where
  | null : Json
  | bool : Bool → Json
  | num : Int → Json
  | str : String → Json
  | arr : List Json → Json
  | obj : List (String × Json) → Json

/-- First-match lookup of a field in an object's field list (payloads are
treated as maps with distinct keys). -/
def lookupField : List (String × Json) → String → Option Json
  | [], _ => none
  | (k, v) :: rest, key => if k = key then some v else lookupField rest key

/-- JavaScript property access `x.key`: a value on objects, `undefined`
(here `none`) on everything else.  (String/array index properties other
than element access are not needed by the embedded code.) -/
def getField : Json → String → Option Json
  | .obj fs, key => lookupField fs key
  | _, _ => none

/-- JavaScript `"key" in x` (property presence test, used by extractData). -/
def hasField : Json → String → Bool
  | .obj fs, key => fs.any (fun kv => kv.1 = key)
  | _, _ => false

/-- JavaScript truthiness of a defined value. -/
def truthy : Json → Bool
  | .null => false
  | .bool b => b
  | .num n => n != 0
  | .str s => s != ""
  | .arr _ => true
  | .obj _ => true

/-- Truthiness of a possibly-`undefined` value (`none` is `undefined`). -/
def truthyO : Option Json → Bool
  | none => false
  | some v => truthy v

/-- JavaScript `typeof`.  Note `typeof null`, `typeof []` and `typeof {}`
are all `"object"`. -/
def jsTypeof : Json → String
  | .null => "object"
  | .bool _ => "boolean"
  | .num _ => "number"
  | .str _ => "string"
  | .arr _ => "object"
  | .obj _ => "object"

mutual

/-- JavaScript `String(x)` for defined values.  Arrays stringify by
comma-joining their elements with `null` elements rendered empty; plain
objects stringify to `[object Object]`. -/
def jsToString : Json → String
  | .null => "null"
  | .bool b => if b then "true" else "false"
  | .num n => toString n
  | .str s => s
  | .arr xs => String.intercalate "," (jsElemStrings xs)
  | .obj _ => "[object Object]"

/-- Element stringification for array joining: `null` elements render
empty, as in JavaScript `Array.prototype.toString`. -/
def jsElemStrings : List Json → List String
  | [] => []
  | .null :: rest => "" :: jsElemStrings rest
  | v :: rest => jsToString v :: jsElemStrings rest

end

/-- JavaScript `String(x)` where `x` may be `undefined`. -/
def jsToStringO : Option Json → String
  | none => "undefined"
  | some v => jsToString v

/-- ASCII lower-casing of a character (models `toLowerCase` for the ASCII
message/status strings the code compares against). -/
def lowerChar (c : Char) : Char :=
  if 'A' ≤ c ∧ c ≤ 'Z' then Char.ofNat (c.toNat + 32) else c

/-- ASCII `toLowerCase` on strings. -/
def lowerStr (s : String) : String := String.mk (s.data.map lowerChar)

/-- Whether the pattern list is an initial segment of the other list. -/
def startsWithList : List Char → List Char → Bool
  | [], _ => true
  | _ :: _, [] => false
  | p :: ps, c :: cs => p == c && startsWithList ps cs

/-- Substring occurrence on character lists. -/
def subOccurs (pat : List Char) : List Char → Bool
  | [] => startsWithList pat []
  | c :: rest => startsWithList pat (c :: rest) || subOccurs pat rest

/-- JavaScript `s.includes(pat)`. -/
def containsSub (s pat : String) : Bool := subOccurs pat.data s.data

/-- Value of a decimal digit character, `none` for non-digits. -/
def digitVal (c : Char) : Option Nat :=
  if c.isDigit then some (c.toNat - '0'.toNat) else none

/-- Parse a non-empty all-digit character list as a natural number. -/
def parseDigits : List Char → Option Nat
  | [] => none
  | c :: rest =>
    match digitVal c with
    | none => none
    | some d =>
      match rest with
      | [] => some d
      | _ :: _ => (parseDigits rest).map (fun tl => d * 10 ^ rest.length + tl)

/-- Integer model of `Number(string)`: optional sign and decimal digits;
empty (or all-blank) input coerces to `0`; anything else is `NaN`
(`none`).  Fractional JavaScript numbers are outside this integer model.
Leading/trailing spaces are trimmed as JavaScript does. -/
def parseNumStr (s : String) : Option Int :=
  let chars := (s.data.dropWhile (fun c => c = ' ')).reverse.dropWhile (fun c => c = ' ') |>.reverse
  match chars with
  | [] => some 0
  | '-' :: rest => (parseDigits rest).map (fun n => -(n : Int))
  | '+' :: rest => (parseDigits rest).map (fun n => (n : Int))
  | cs => (parseDigits cs).map (fun n => (n : Int))

/-- JavaScript `Number(x)` on a defined value; `none` models `NaN`. -/
def jsToNumber : Json → Option Int
  | .null => some 0
  | .bool b => some (if b then 1 else 0)
  | .num n => some n
  | .str s => parseNumStr s
  | .arr xs => parseNumStr (jsToString (.arr xs))
  | .obj _ => none

/-- First truthy value of a `||` chain, else the chain's final default. -/
def firstTruthy (xs : List (Option Json)) (dflt : Json) : Json :=
  match xs with
  | [] => dflt
  | o :: rest =>
    match o with
    | some v => if truthy v then v else firstTruthy rest dflt
    | none => firstTruthy rest dflt

/-- First non-nullish value of a `??` chain, else the default. -/
def firstNonNullish (xs : List (Option Json)) (dflt : Json) : Json :=
  match xs with
  | [] => dflt
  | o :: rest =>
    match o with
    | some .null => firstNonNullish rest dflt
    | some v => v
    | none => firstNonNullish rest dflt

/-- Optional chaining `base?.key` applied to a possibly-undefined base. -/
def optChain (o : Option Json) (key : String) : Option Json :=
  match o with
  | none => none
  | some .null => none
  | some v => getField v key

/-- JavaScript `x[0]` / `x["0"]`: array element 0, or the `"0"` property
of an object, or the first character of a string. -/
def jsIndex0 : Json → Option Json
  | .arr [] => none
  | .arr (x :: _) => some x
  | .obj fs => lookupField fs "0"
  | .str s =>
    match s.data with
    | [] => none
    | c :: _ => some (.str (String.mk [c]))
  | _ => none

/-- Optional chaining into index 0: `base?.[0]`. -/
def optIndex0 (o : Option Json) : Option Json :=
  match o with
  | none => none
  | some .null => none
  | some v => jsIndex0 v

/-- extractData from api.ts: returns `response.data.data` when the body is
a truthy object carrying a `data` property, else the body itself.  The
argument is the response body (`response.data` in axios terms). -/
def extractData (body : Json) : Json :=
  if truthy body && (jsTypeof body == "object") && hasField body "data" then
    match getField body "data" with
    | some v => v
    | none => .null
  else
    body

/-- Normalized slot status enum. -/
inductive SlotStatus where
  | available : SlotStatus
  | occupied : SlotStatus
  | reserved : SlotStatus
deriving DecidableEq, Repr

/-- Normalized vehicle size enum. -/
inductive VehicleSize where
  | compact : VehicleSize
  | standard : VehicleSize
  | large : VehicleSize
deriving DecidableEq, Repr

/-- Normalized Slot entity (fetchParkingSlots output).  `level` and
`pricePerHour` are `Option Int` with `none` modelling `NaN`. -/
structure Slot where
  id : String
  number : String
  status : SlotStatus
  level : Option Int
  vehicleSize : VehicleSize
  pricePerHour : Option Int
deriving DecidableEq, Repr

/-- Boolean-field fallback of the slot status resolution (api.ts lines
613-618), reached when no truthy string status is present: a present
`is_booked` decides first; otherwise a present `is_available` decides;
otherwise the default `available` stands. -/
def slotStatusBool (slot : Json) : SlotStatus :=
  match getField slot "is_booked" with
  | some b => if truthy b then .occupied else .available
  | none =>
    match getField slot "is_available" with
    | some a => if truthy a then .available else .occupied
    | none => .available

/-- Status resolution of fetchParkingSlots (api.ts lines 599-618): a
truthy `status` field is string-matched first; otherwise the boolean
fields decide.  Unrecognized truthy status strings leave the default
`available`. -/
def slotStatusOf (slot : Json) : SlotStatus :=
  match getField slot "status" with
  | some st =>
    if truthy st then
      let sl := lowerStr (jsToString st)
      if sl = "available" ∨ sl = "free" then .available
      else if sl = "occupied" ∨ sl = "booked" ∨ sl = "taken" then .occupied
      else if sl = "reserved" then .reserved
      else .available
    else slotStatusBool slot
  | none => slotStatusBool slot

/-- Error message for a JavaScript TypeError raised by property access on
`null`. -/
def typeErrNull : String := "TypeError: Cannot read properties of null"

/-- Error message for calling `toLowerCase` on a non-string value. -/
def typeErrLower : String := "TypeError: toLowerCase is not a function"

/-- Normalization of one raw slot at a list index (the map callback of
fetchParkingSlots, api.ts lines 599-648).  A `null` element throws on the
first property access, and a truthy non-string size field throws at
`.toLowerCase()`; both surface as `Except.error`. -/
def normalizeSlot (slot : Json) (index : Nat) : Except String Slot :=
  match slot with
  | .null => .error typeErrNull
  | _ =>
    let status := slotStatusOf slot
    let level := jsToNumber (firstNonNullish
      [getField slot "level", getField slot "floor", getField slot "floor_number",
       getField slot "floor_id", getField slot "floor_level"] (.num 0))
    let sizeRaw := firstTruthy
      [getField slot "vehicleSize", getField slot "vehicle_size", getField slot "size"]
      (.str "standard")
    match sizeRaw with
    | .str s =>
      let sl := lowerStr s
      let vehicleSize : VehicleSize :=
        if containsSub sl "compact" || containsSub sl "small" then .compact
        else if containsSub sl "large" || containsSub sl "big" then .large
        else .standard
      .ok
        { id := jsToString (firstTruthy [getField slot "id", getField slot "slot_id"]
            (.str ("slot-" ++ toString (index + 1))))
          number := jsToString (firstTruthy
            [getField slot "number", getField slot "slot_number", getField slot "name",
             getField slot "id"] (.num ((index : Int) + 1)))
          status := status
          level := level
          vehicleSize := vehicleSize
          pricePerHour := jsToNumber (firstTruthy
            [getField slot "pricePerHour", getField slot "price_per_hour",
             getField slot "price"] (.num 5)) }
    | _ => .error typeErrLower

/-- Exception-propagating map, mirroring a JavaScript `Array.prototype.map`
whose callback may throw: evaluation is left to right and stops at the
first thrown error. -/
def mapExcept (f : α → Except String β) : List α → Except String (List β)
  | [] => .ok []
  | a :: as =>
    match f a with
    | .error e => .error e
    | .ok b =>
      match mapExcept f as with
      | .error e => .error e
      | .ok bs => .ok (b :: bs)

/-- Pair each element with its index, mirroring the `(slot, index)` map
callback arguments. -/
def withIndexFrom (i : Nat) : List α → List (α × Nat)
  | [] => []
  | a :: as => (a, i) :: withIndexFrom (i + 1) as

/-- Selection of the slots array from the extracted payload
(api.ts lines 574-591): a direct array, else the first of the
`slots`/`data`/`parking`/`parkingSlots` properties that is an array, else
empty. -/
def slotsArrayOf (rawData : Json) : List Json :=
  match rawData with
  | .arr xs => xs
  | _ =>
    if truthy rawData && (jsTypeof rawData == "object") then
      match getField rawData "slots" with
      | some (.arr xs) => xs
      | _ =>
        match getField rawData "data" with
        | some (.arr xs) => xs
        | _ =>
          match getField rawData "parking" with
          | some (.arr xs) => xs
          | _ =>
            match getField rawData "parkingSlots" with
            | some (.arr xs) => xs
            | _ => []
    else []

/-- fetchParkingSlots on a 2xx response body (api.ts lines 569-655):
extract the payload, locate the slots array, return `[]` when it is
empty, and otherwise normalize every element.  The surrounding catch
rethrows `Error(formatError(e))`, which for errors thrown inside the try
block keeps the message, so errors are propagated unchanged here. -/
def fetchParkingSlotsData (body : Json) : Except String (List Slot) :=
  let slotsArray := slotsArrayOf (extractData body)
  if slotsArray.isEmpty then .ok []
  else mapExcept (fun si => normalizeSlot si.1 si.2) (withIndexFrom 0 slotsArray)

/-- Normalized Floor entity (fetchFloors output). -/
structure Floor where
  id : String
  name : String
  level : Option Int
  totalSlots : Nat
  availableSlots : Nat
  layout : List Slot
deriving DecidableEq, Repr

/-- Insertion-ordered key collection, mirroring the iteration order of the
JavaScript `Map` built in fetchFloors (keys appear in first-occurrence
order). -/
def mapKeysAux (acc : List (Option Int)) : List (Option Int) → List (Option Int)
  | [] => acc
  | k :: rest => mapKeysAux (if k ∈ acc then acc else acc ++ [k]) rest

/-- Keys of the level-grouping `Map`, in insertion order. -/
def mapKeys (ks : List (Option Int)) : List (Option Int) :=
  mapKeysAux [] ks

/-- Comparator order for floor levels: the ascending numeric order of the
JavaScript sort `(a, b) => a - b`.  A `NaN` level (`none`) is placed
first in this model (its relative order is not exercised by any verified
statement). -/
def keyLe : Option Int → Option Int → Bool
  | none, _ => true
  | some _, none => false
  | some x, some y => x ≤ y

/-- `keyLe` as a relation for `List.insertionSort`. -/
def rLe (a b : Option Int) : Prop := keyLe a b = true

instance : DecidableRel rLe := fun a b => inferInstanceAs (Decidable (keyLe a b = true))

instance : IsTotal (Option Int) rLe where
  total a b := by
    cases a with
    | none => exact Or.inl rfl
    | some x =>
      cases b with
      | none => exact Or.inr rfl
      | some y =>
        rcases Int.le_total x y with h | h
        · exact Or.inl (by simpa [rLe, keyLe] using h)
        · exact Or.inr (by simpa [rLe, keyLe] using h)

instance : IsTrans (Option Int) rLe where
  trans a b c hab hbc := by
    cases a with
    | none => rfl
    | some x =>
      cases b with
      | none => simp [rLe, keyLe] at hab
      | some y =>
        cases c with
        | none => simp [rLe, keyLe] at hbc
        | some z =>
          simp only [rLe, keyLe, decide_eq_true_eq] at hab hbc ⊢
          exact le_trans hab hbc

/-- Display name of a level in floor titles. -/
def levelKeyStr : Option Int → String
  | none => "NaN"
  | some n => toString n

/-- Floor built for one level key: the slots of the garage filtered to
that level, in their original order — exactly the per-key list the
JavaScript `Map` accumulates. -/
def mkFloorAt (slots : List Slot) (lv : Option Int) : Floor :=
  let fs := slots.filter (fun s => s.level == lv)
  { id := "floor-" ++ levelKeyStr lv
    name :=
      if lv == some 0 then "Ground Floor"
      else if lv == some 1 then "1st Floor"
      else if lv == some 2 then "2nd Floor"
      else "Floor " ++ levelKeyStr lv
    level := lv
    totalSlots := fs.length
    availableSlots := (fs.filter (fun s => s.status == SlotStatus.available)).length
    layout := fs }

/-- The synthetic floor returned when a garage has no slots. -/
def generalFloor : Floor :=
  { id := "general-parking", name := "General Parking", level := some 0,
    totalSlots := 0, availableSlots := 0, layout := [] }

/-- The floor-derivation part of fetchFloors (api.ts lines 736-785): with
no slots return the single synthetic floor; otherwise group the slots by
level (insertion-ordered map keys), sort the levels ascending, and build
one floor per level. -/
def fetchFloorsFromSlots (slots : List Slot) : List Floor :=
  if slots.isEmpty then [generalFloor]
  else
    (List.insertionSort rLe (mapKeys (slots.map Slot.level))).map (mkFloorAt slots)

/-- Normalized Booking entity.  `status`, `timeStart` and `timeEnd` keep
the raw JavaScript value (the source applies a type cast, not a runtime
conversion); numeric fields are `Option Int` with `none` for `NaN`;
`place`/`garage` are the preserved raw backend objects. -/
structure Booking where
  id : String
  garageId : String
  userId : String
  slotId : String
  status : Json
  totalPrice : Option Int
  vehiclePlate : String
  timeStart : Json
  timeEnd : Json
  durationHours : Option Int
  place : Option Json
  garage : Option Json

/-- Garage-id resolution shared by the booking normalizers (api.ts lines
958-966 and 1131-1139). -/
def bookingGarageId (raw : Json) : String :=
  jsToString (firstTruthy
    [optChain (getField raw "garage") "id", optChain (getField raw "place") "id",
     getField raw "garage_id", getField raw "place_id",
     getField raw "garageId", getField raw "placeId"] (.str ""))

/-- User-id resolution shared by the booking normalizers. -/
def bookingUserId (raw : Json) : String :=
  jsToString (firstTruthy
    [optChain (getField raw "user") "id", getField raw "user_id",
     getField raw "userId"] (.str ""))

/-- Slot-id resolution shared by the booking normalizers. -/
def bookingSlotId (raw : Json) : String :=
  jsToString (firstTruthy
    [optChain (getField raw "parking_spot") "id", optChain (getField raw "spot") "id",
     optChain (getField raw "slot") "id",
     getField raw "parking_spot_id", getField raw "spot_id", getField raw "slot_id",
     getField raw "slotId", getField raw "spotId", getField raw "parkingSpotId"] (.str ""))

/-- Shared non-id booking fields (identical in normalizeBooking and in
fetchBookingById's inline normalization). -/
def bookingTotalPrice (raw : Json) : Option Int :=
  jsToNumber (firstTruthy
    [getField raw "total_amount", getField raw "total_price",
     getField raw "totalPrice", getField raw "amount"] (.num 0))

/-- Vehicle-plate resolution with the `N/A` default. -/
def bookingPlate (raw : Json) : String :=
  jsToString (firstTruthy
    [getField raw "vehicle_plate", getField raw "vehiclePlate",
     getField raw "plate", getField raw "license_plate"] (.str "N/A"))

/-- Time-window start, falling back to the current instant. -/
def bookingStart (now : String) (raw : Json) : Json :=
  firstTruthy
    [getField raw "start_time", getField raw "startTime",
     optChain (getField raw "time") "start"] (.str now)

/-- Time-window end, falling back to the current instant. -/
def bookingEnd (now : String) (raw : Json) : Json :=
  firstTruthy
    [getField raw "end_time", getField raw "endTime",
     optChain (getField raw "time") "end"] (.str now)

/-- Duration in hours with the default of 1. -/
def bookingDuration (raw : Json) : Option Int :=
  jsToNumber (firstTruthy
    [getField raw "duration_hours", getField raw "durationHours",
     getField raw "duration", optChain (getField raw "time") "durationHours"] (.num 1))

/-- A raw value preserved only when it is a truthy `typeof "object"` value
(the `rawBooking.place && typeof rawBooking.place === 'object'` guards). -/
def keptObject (o : Option Json) : Option Json :=
  match o with
  | some v => if truthy v && (jsTypeof v == "object") then some v else none
  | none => none

/-- normalizeBooking (api.ts lines 957-1033), used by the bookings
listing.  The id is `String(rawBooking.id || "")`; a `null` element
throws a TypeError at the first property access. -/
def normalizeBookingE (now : String) (raw : Json) : Except String Booking :=
  match raw with
  | .null => .error typeErrNull
  | _ =>
    .ok
      { id := jsToString (firstTruthy [getField raw "id"] (.str ""))
        garageId := bookingGarageId raw
        userId := bookingUserId raw
        slotId := bookingSlotId raw
        status := firstTruthy [getField raw "status"] (.str "pending")
        totalPrice := bookingTotalPrice raw
        vehiclePlate := bookingPlate raw
        timeStart := bookingStart now raw
        timeEnd := bookingEnd now raw
        durationHours := bookingDuration raw
        place := keptObject (getField raw "place")
        garage := keptObject (getField raw "garage") }

/-- The two result buckets of the bookings listing. -/
structure BookingBuckets where
  current : List Booking
  past : List Booking

/-- Array stored under a property, or `[]` when absent or not an array
(the `Array.isArray(rawData.current) ? rawData.current : []` pattern). -/
def arrAt (j : Json) (key : String) : List Json :=
  match getField j key with
  | some (.arr xs) => xs
  | _ => []

/-- Status filter of the flat-list fallback: keeps raw bookings whose raw
`status` is strictly equal to one of the given strings; accessing
`.status` on a `null` element throws. -/
def filterStatusIn (statuses : List String) : List Json → Except String (List Json)
  | [] => .ok []
  | b :: rest =>
    match b with
    | .null => .error typeErrNull
    | _ =>
      let keep :=
        match getField b "status" with
        | some (.str s) => statuses.contains s
        | _ => false
      match filterStatusIn statuses rest with
      | .error e => .error e
      | .ok bs => .ok (if keep then b :: bs else bs)

/-- Flat-list fallback source array (api.ts lines 1058-1067): the raw
payload itself when it is an array, else its `bookings` or `data` array
when it is a truthy object, else empty.  (This branch is only reached
when the payload is not a truthy object, because of the check above it.) -/
def fallbackBookingsArray (rawData : Json) : List Json :=
  match rawData with
  | .arr xs => xs
  | _ =>
    if truthy rawData && (jsTypeof rawData == "object") then
      match getField rawData "bookings" with
      | some (.arr xs) => xs
      | _ =>
        match getField rawData "data" with
        | some (.arr xs) => xs
        | _ => []
    else []

/-- Body of the try block of fetchUserBookings (api.ts lines 1042-1081):
any truthy `typeof "object"` payload — which includes arrays — takes the
`{current, past}` branch; everything else goes through the flat-list
fallback. -/
def tryUserBookings (now : String) (body : Json) : Except String BookingBuckets :=
  let rawData := extractData body
  if truthy rawData && (jsTypeof rawData == "object") then
    match mapExcept (normalizeBookingE now) (arrAt rawData "current") with
    | .error e => .error e
    | .ok current =>
      match mapExcept (normalizeBookingE now) (arrAt rawData "past") with
      | .error e => .error e
      | .ok past => .ok ⟨current, past⟩
  else
    match filterStatusIn ["active", "upcoming", "confirmed", "pending"]
        (fallbackBookingsArray rawData) with
    | .error e => .error e
    | .ok currentRaw =>
      match filterStatusIn ["completed", "cancelled"] (fallbackBookingsArray rawData) with
      | .error e => .error e
      | .ok pastRaw =>
        match mapExcept (normalizeBookingE now) currentRaw with
        | .error e => .error e
        | .ok current =>
          match mapExcept (normalizeBookingE now) pastRaw with
          | .error e => .error e
          | .ok past => .ok ⟨current, past⟩

/-- fetchUserBookings (api.ts lines 1040-1087).  The input is the
transport outcome: a response body on success, a message on failure.  The
catch-all converts every failure — transport or normalization — into two
empty buckets. -/
def fetchUserBookingsData (now : String) (resp : Except String Json) : BookingBuckets :=
  match resp with
  | .error _ => ⟨[], []⟩
  | .ok body =>
    match tryUserBookings now body with
    | .error _ => ⟨[], []⟩
    | .ok r => r

/-- Location of the raw booking object in a fetchBookingById payload
(api.ts lines 1100-1119): the payload itself when its `id` is truthy,
else a truthy-object `booking` property, else `data?.booking` when
truthy, else `data` when `data?.id` is truthy. -/
def rawBookingOf (rawData : Json) : Option Json :=
  if truthy rawData && (jsTypeof rawData == "object") then
    if truthyO (getField rawData "id") then some rawData
    else if (match getField rawData "booking" with
             | some v => truthy v && (jsTypeof v == "object")
             | none => false) then getField rawData "booking"
    else if truthyO (optChain (getField rawData "data") "booking") then
      optChain (getField rawData "data") "booking"
    else if truthyO (optChain (getField rawData "data") "id") then
      getField rawData "data"
    else none
  else none

/-- The inline normalization of fetchBookingById (api.ts lines 1126-1194):
identical to `normalizeBookingE` except that the id is
`String(rawBooking.id)` — producing the string `undefined` when the field
is absent — the status default is `pending`, and no `place`/`garage`
object is preserved. -/
def normalizeBookingById (now : String) (raw : Json) : Booking :=
  { id := jsToStringO (getField raw "id")
    garageId := bookingGarageId raw
    userId := bookingUserId raw
    slotId := bookingSlotId raw
    status := firstTruthy [getField raw "status"] (.str "pending")
    totalPrice := bookingTotalPrice raw
    vehiclePlate := bookingPlate raw
    timeStart := bookingStart now raw
    timeEnd := bookingEnd now raw
    durationHours := bookingDuration raw
    place := none
    garage := none }

/-- fetchBookingById on a 2xx response body (api.ts lines 1094-1212):
locate the raw booking, normalize it, and fail when the booking cannot be
located or when the normalized id or garage id is the empty string.  The
catch rethrows with the same message for errors raised in the try block. -/
def fetchBookingByIdData (now : String) (idArg : String) (body : Json) :
    Except String Booking :=
  match rawBookingOf (extractData body) with
  | none => .error ("Booking #" ++ idArg ++ " not found")
  | some rb =>
    let b := normalizeBookingById now rb
    if b.id = "" then .error "Invalid booking data: Missing ID"
    else if b.garageId = "" then .error "Invalid booking data: Missing garage ID"
    else .ok b

/-- Normalized User entity.  `phone`/`avatarUrl` keep the raw value (the
source assigns `x || y || undefined`), and `role` keeps the raw value (a
type cast, not a conversion). -/
structure User where
  id : String
  name : String
  email : String
  phone : Option Json
  avatarUrl : Option Json
  role : Json

/-- Truthy-object test used by the flexible user extraction:
`x && typeof x === 'object'` on a possibly-undefined value. -/
def condObj (o : Option Json) : Bool :=
  match o with
  | some v => truthy v && (jsTypeof v == "object")
  | none => false

/-- Flexible user extraction of login (api.ts lines 140-160): `user`
property, index `0` (written both as `[0]` and `["0"]` in the source, two
identical checks), `data?.user`, then `data?.[0]`. -/
def loginRawUser (d : Json) : Option Json :=
  if condObj (getField d "user") then getField d "user"
  else if condObj (jsIndex0 d) then jsIndex0 d
  else if condObj (jsIndex0 d) then jsIndex0 d
  else if condObj (optChain (getField d "data") "user") then optChain (getField d "data") "user"
  else if condObj (optIndex0 (getField d "data")) then optIndex0 (getField d "data")
  else none

/-- Flexible token extraction of login (api.ts lines 186-197): `token`,
`access_token`, `data?.token`, `data?.access_token`, each taken when
truthy and stringified. -/
def loginToken (d : Json) : Option String :=
  if truthyO (getField d "token") then some (jsToStringO (getField d "token"))
  else if truthyO (getField d "access_token") then some (jsToStringO (getField d "access_token"))
  else if truthyO (optChain (getField d "data") "token") then
    some (jsToStringO (optChain (getField d "data") "token"))
  else if truthyO (optChain (getField d "data") "access_token") then
    some (jsToStringO (optChain (getField d "data") "access_token"))
  else none

/-- User normalization of login (api.ts lines 170-177). -/
def normalizeUserJson (rawUser : Json) : User :=
  { id := jsToString (firstTruthy [getField rawUser "id", getField rawUser "user_id"] (.str ""))
    name := jsToString (firstTruthy
      [getField rawUser "name", getField rawUser "full_name", getField rawUser "username"]
      (.str ""))
    email := jsToString (firstTruthy [getField rawUser "email"] (.str ""))
    phone :=
      match firstTruthy [getField rawUser "phone", getField rawUser "phone_number"] .null with
      | .null => none
      | v => some v
    avatarUrl :=
      match firstTruthy
        [getField rawUser "avatarUrl", getField rawUser "avatar_url", getField rawUser "avatar"]
        .null with
      | .null => none
      | v => some v
    role := firstTruthy [getField rawUser "role", getField rawUser "user_role"] (.str "user") }

/-- The pure normalization pipeline of login on a 2xx response body
(api.ts lines 129-218): extract the payload, locate the raw user,
normalize and validate it, then locate and validate the token. -/
def loginNormalize (body : Json) : Except String (User × String) :=
  let d := extractData body
  match loginRawUser d with
  | none => .error "Login failed: No user data received from server"
  | some rawUser =>
    let nu := normalizeUserJson rawUser
    if nu.id = "" ∨ nu.email = "" then .error "Login failed: Invalid user data structure"
    else
      match loginToken d with
      | none => .error "Login failed: No authentication token received from server"
      | some tok =>
        if tok = "" then .error "Login failed: No authentication token received from server"
        else if tok = "undefined" ∨ tok = "null" then
          .error "Login failed: Invalid authentication token"
        else .ok (nu, tok)

/-- Login response body shaped `{data: {data: {user: u, token: t}}}`. -/
def mkNestedLogin (u : Json) (t : String) : Json :=
  .obj [("data", .obj [("data", .obj [("user", u), ("token", .str t)])])]

/-- Login response body shaped `{user: u, token: t}`. -/
def mkFlatLogin (u : Json) (t : String) : Json :=
  .obj [("user", u), ("token", .str t)]

/-- A caught JavaScript error value: either a plain `Error` (only a
message) or an axios error with an optional HTTP response
(status and body), an optional transport code, and a message. -/
inductive JsError where
  | plain : String → JsError
  | axios : Option (Nat × Json) → Option String → String → JsError

/-- formatError (api.ts lines 85-121): prefer the backend `message` then
`error` body fields verbatim, then a status-code table, then a transport
code, then the error's own message. -/
def formatError : JsError → String
  | .plain m => m
  | .axios resp code msg =>
    let fromBody :=
      match resp with
      | some (_, data) =>
        if truthyO (getField data "message") then some (jsToStringO (getField data "message"))
        else if truthyO (getField data "error") then some (jsToStringO (getField data "error"))
        else none
      | none => none
    match fromBody with
    | some m => m
    | none =>
      match resp with
      | some (status, _) =>
        if status = 404 then "Resource not found"
        else if status = 403 then "Access forbidden"
        else if status = 401 then "Unauthorized. Please login again"
        else if status = 500 then "Server error. Please try again later"
        else if 400 ≤ status ∧ status < 500 then "Invalid request"
        else if 500 ≤ status then "Server error"
        else formatErrorTail code msg
      | none => formatErrorTail code msg
where
  formatErrorTail (code : Option String) (msg : String) : String :=
    if code = some "ECONNABORTED" then "Request timeout. Please try again"
    else if code = some "ERR_NETWORK" then "Network error. Check your connection"
    else if msg ≠ "" then msg
    else "An error occurred"

/-- The error endBooking throws when the server answers with an HTTP
error (api.ts lines 921-923): a plain `Error` carrying only
`formatError`'s message — the original response object (and with it the
status) is discarded. -/
def endBookingServerError (status : Nat) (data : Json) : JsError :=
  .plain (formatError (.axios (some (status, data)) none
    ("Request failed with status code " ++ toString status)))

/-- Outcome of the ActiveBooking page's end-parking handler. -/
inductive EndOutcome where
  | navigate : String → EndOutcome
  | showError : String → EndOutcome
deriving DecidableEq, Repr

/-- `err?.response?.status` on a caught error. -/
def errRespStatus : JsError → Option Nat
  | .plain _ => none
  | .axios resp _ _ => resp.map Prod.fst

/-- `err?.status` on a caught error (set by axios from the response; a
plain `Error` has no such property). -/
def errStatus : JsError → Option Nat
  | .plain _ => none
  | .axios resp _ _ => resp.map Prod.fst

/-- `err?.response?.data?.message` on a caught error, stringified as the
page later renders it. -/
def errRespDataMessage : JsError → Option String
  | .plain _ => none
  | .axios resp _ _ =>
    match resp with
    | some (_, data) =>
      if truthyO (getField data "message") then some (jsToStringO (getField data "message"))
      else none
    | none => none

/-- `err?.message` on a caught error. -/
def errMessage : JsError → String
  | .plain m => m
  | .axios _ _ m => m

/-- First truthy string of a `||` chain over possibly-undefined strings. -/
def firstTruthyStr (xs : List (Option String)) (dflt : String) : String :=
  match xs with
  | [] => dflt
  | o :: rest =>
    match o with
    | some s => if s ≠ "" then s else firstTruthyStr rest dflt
    | none => firstTruthyStr rest dflt

/-- handleEndParking of ActiveBooking.tsx (lines 139-176): on success
navigate to the bookings page; on a caught error, treat it as success
only when it is a 400 error whose message contains an already-ended
phrase, otherwise surface the message. -/
def handleEndParkingResult (res : Except JsError Booking) : EndOutcome :=
  match res with
  | .ok _ => .navigate "/bookings"
  | .error err =>
    let is400 := (errRespStatus err == some 400) || (errStatus err == some 400)
    let errorMessage := firstTruthyStr [errRespDataMessage err, some (errMessage err)] ""
    let lower := lowerStr errorMessage
    let isAlreadyCompleted := is400 &&
      (containsSub lower "already completed" || containsSub lower "already ended" ||
       containsSub lower "already finished")
    if isAlreadyCompleted then .navigate "/bookings"
    else .showError (firstTruthyStr [errRespDataMessage err, some (errMessage err)]
      "Failed to end parking. Please try again.")

/-- Payment payload assembled by the Payment page before calling
processPayment. -/
structure PaymentPayload where
  parkingSpotId : String
  garageId : String
  userId : String
  totalAmount : Int
  startTime : String
  endTime : String
  durationHours : Int
  paymentMethod : String
  vehiclePlate : Option String

/-- The snake_case body processPayment sends to `POST /bookings/pay`. -/
structure BackendPayBody where
  parking_spot_id : String
  garage_id : String
  user_id : String
  total_amount : Int
  start_time : String
  end_time : String
  duration_hours : Int
  payment_method : String
  vehicle_plate : Option String
deriving DecidableEq, Repr

/-- processPayment's request-body construction (api.ts lines 1234-1244):
a field-for-field snake_case mapping; the payment method is sent exactly
as received. -/
def processPaymentBody (p : PaymentPayload) : BackendPayBody :=
  { parking_spot_id := p.parkingSpotId
    garage_id := p.garageId
    user_id := p.userId
    total_amount := p.totalAmount
    start_time := p.startTime
    end_time := p.endTime
    duration_hours := p.durationHours
    payment_method := p.paymentMethod
    vehicle_plate := p.vehiclePlate }

/-- The payment-method mapping of the Payment page (Payment.tsx): the
value `card` is rewritten to the backend's `credit_card`; every other
method is left as is. -/
def paymentMethodValue (method : String) : String :=
  if method = "card" then "credit_card" else method

/-- The outgoing pay request body produced by the Payment page's
handlePayment for a chosen method: the payload is built with the mapped
method and handed to processPayment. -/
def handlePaymentBody (method : String) (p : PaymentPayload) : BackendPayBody :=
  processPaymentBody { p with paymentMethod := paymentMethodValue method }

/-- Whether a value is a JSON array (`Array.isArray`). -/
def isArrJ : Json → Bool
  | .arr _ => true
  | _ => false

/-- Whether a possibly-undefined value is an array. -/
def isArrO : Option Json → Bool
  | some (.arr _) => true
  | _ => false

/-- The property keys under which fetchParkingSlots recognizes a nested
slots array. -/
def recognizedSlotKeys : List String := ["slots", "data", "parking", "parkingSlots"]

/-! Helper lemmas about the truthiness chains. -/

theorem firstTruthy_cons_falsy {o : Option Json} {rest : List (Option Json)} {dflt : Json}
    (h : truthyO o = false) : firstTruthy (o :: rest) dflt = firstTruthy rest dflt := by
  cases o with
  | none => rfl
  | some v =>
    simp only [truthyO] at h
    simp [firstTruthy, h]

theorem firstTruthy_cons_truthy {v : Json} {rest : List (Option Json)} {dflt : Json}
    (h : truthy v = true) : firstTruthy (some v :: rest) dflt = v := by
  simp [firstTruthy, h]

/-! C9 -/

/-- C9: a garage with zero fetched slots derives exactly one synthetic
floor, the `general-parking` floor, whose totalSlots and availableSlots
are both 0 — never an empty floor list. -/
theorem fetchFloors_empty_synthetic_floor :
    fetchFloorsFromSlots [] = [generalFloor]
    ∧ generalFloor.totalSlots = 0 ∧ generalFloor.availableSlots = 0
    ∧ generalFloor.id = "general-parking" := by
  exact ⟨rfl, rfl, rfl, rfl⟩

/-! C1 -/

/-- C1: contrary to the claim, a flat-list bookings response is NOT
partitioned by status: a JavaScript array satisfies
`typeof x === "object"`, so a flat array takes the `{current, past}`
branch, finds neither property, and yields two empty buckets; the
status-partition fallback is unreachable for arrays.  The second conjunct
evaluates the pipeline at a concrete flat list containing one pending
booking, which the claim says must land in the `current` bucket. -/
theorem fetchUserBookings_flat_list_buckets :
    (∀ (now : String) (xs : List Json),
      fetchUserBookingsData now (.ok (.arr xs)) = ⟨[], []⟩)
    ∧ fetchUserBookingsData "2025-01-01T00:00:00.000Z"
        (.ok (.arr [.obj [("id", .num 1), ("status", .str "pending")]])) = ⟨[], []⟩ := by
  refine ⟨fun now xs => rfl, rfl⟩

/-! C2 -/

/-- C2: contrary to the claim, ending an already-completed booking does
NOT resolve as success: endBooking rethrows a plain `Error` that carries
only the formatted message, so the page's `err?.response?.status === 400`
and `err?.status === 400` checks can never hold, the already-completed
detection never fires, and the handler surfaces the error message instead
of navigating away.  Evaluated at a 400 response whose body message is
`Booking already completed`. -/
theorem endBooking_already_completed_surfaces_error :
    handleEndParkingResult (.error (endBookingServerError 400
        (.obj [("message", .str "Booking already completed")])))
      = .showError "Booking already completed"
    ∧ handleEndParkingResult (.error (endBookingServerError 400
        (.obj [("message", .str "Booking already completed")])))
      ≠ .navigate "/bookings" := by
  exact ⟨rfl, by decide⟩

/-! C4 -/

/-- C4 counterexample: the claim's first conjunct fails on a payload with
both a string status `reserved` and `is_booked = true` (the code yields
`reserved`, not `occupied`), and its second conjunct fails on a payload
with `is_booked = false` and `is_available = false` and no string status
(the code takes the `is_booked` branch and yields `available`, not
`occupied`). -/
theorem slot_status_claim_counterexample :
    slotStatusOf (.obj [("status", .str "reserved"), ("is_booked", .bool true)]) = .reserved
    ∧ slotStatusOf (.obj [("status", .str "reserved"), ("is_booked", .bool true)]) ≠ .occupied
    ∧ slotStatusOf (.obj [("is_booked", .bool false), ("is_available", .bool false)])
        = .available
    ∧ slotStatusOf (.obj [("is_booked", .bool false), ("is_available", .bool false)])
        ≠ .occupied := by
  refine ⟨rfl, by decide, rfl, by decide⟩

/-- C4 (amended): when no truthy string status is present, a truthy
`is_booked` yields `occupied`; when additionally no `is_booked` field is
present at all, a falsy `is_available` yields `occupied`; a truthy status
field that lower-cases to `reserved` yields `reserved` regardless of any
boolean fields; and the status of every successfully normalized slot is
exactly this resolution. -/
theorem slot_status_resolution :
    (∀ (slot v : Json), truthyO (getField slot "status") = false →
      getField slot "is_booked" = some v → truthy v = true →
      slotStatusOf slot = .occupied)
    ∧ (∀ (slot v : Json), truthyO (getField slot "status") = false →
      getField slot "is_booked" = none → getField slot "is_available" = some v →
      truthy v = false → slotStatusOf slot = .occupied)
    ∧ (∀ (slot st : Json), getField slot "status" = some st → truthy st = true →
      lowerStr (jsToString st) = "reserved" → slotStatusOf slot = .reserved)
    ∧ (∀ (slot : Json) (i : Nat) (s : Slot), normalizeSlot slot i = .ok s →
      s.status = slotStatusOf slot) := by
  refine ⟨?_, ?_, ?_, ?_⟩
  · intro slot v hst hb hv
    unfold slotStatusOf
    rcases h : getField slot "status" with _ | st
    · simp [slotStatusBool, hb, hv]
    · rw [h] at hst
      simp only [truthyO] at hst
      simp [hst, slotStatusBool, hb, hv]
  · intro slot v hst hb ha hv
    unfold slotStatusOf
    rcases h : getField slot "status" with _ | st
    · simp [slotStatusBool, hb, ha, hv]
    · rw [h] at hst
      simp only [truthyO] at hst
      simp [hst, slotStatusBool, hb, ha, hv]
  · intro slot st h htr hres
    unfold slotStatusOf
    rw [h]
    simp only [htr, if_true]
    rw [hres]
    decide
  · intro slot i s h
    simp only [normalizeSlot] at h
    split at h
    · exact absurd h (by simp)
    · split at h
      · exact (congrArg Slot.status (Except.ok.inj h)).symm
      · exact absurd h (by simp)

/-- C4 witness: the three resolution rules and the normalization link,
each applied at a concrete slot payload. -/
theorem slot_status_resolution_witness :
    (truthyO (getField (.obj [("is_booked", .bool true)]) "status") = false
      ∧ slotStatusOf (.obj [("is_booked", .bool true)]) = .occupied)
    ∧ slotStatusOf (.obj [("is_available", .bool false)]) = .occupied
    ∧ slotStatusOf (.obj [("status", .str "Reserved"), ("is_available", .bool true)])
        = .reserved
    ∧ (⟨"slot-1", "1", .occupied, some 0, .standard, some 5⟩ : Slot).status
        = slotStatusOf (.obj [("is_booked", .bool true)]) := by
  refine ⟨⟨rfl, ?_⟩, ?_, ?_, ?_⟩
  · exact slot_status_resolution.1 _ (.bool true) rfl rfl rfl
  · exact slot_status_resolution.2.1 _ (.bool false) rfl rfl rfl rfl
  · exact slot_status_resolution.2.2.1 _ (.str "Reserved") rfl rfl rfl
  · exact slot_status_resolution.2.2.2 (.obj [("is_booked", .bool true)]) 0 _ rfl

/-! C10 -/

theorem slotsArrayOf_eq_nil {r : Json} (h1 : isArrJ r = false)
    (hs : isArrO (getField r "slots") = false)
    (hd : isArrO (getField r "data") = false)
    (hp : isArrO (getField r "parking") = false)
    (hps : isArrO (getField r "parkingSlots") = false) :
    slotsArrayOf r = [] := by
  unfold slotsArrayOf
  cases r with
  | arr xs => simp [isArrJ] at h1
  | null => rfl
  | bool b => cases b <;> rfl
  | num n =>
    have hc : (jsTypeof (Json.num n) == "object") = false := rfl
    simp [hc]
  | str s =>
    have hc : (jsTypeof (Json.str s) == "object") = false := rfl
    simp [hc]
  | obj fs =>
    have hcond : (truthy (Json.obj fs) && (jsTypeof (Json.obj fs) == "object")) = true := rfl
    dsimp only
    simp only [hcond, if_true]
    split
    · simp_all [isArrO]
    · split
      · simp_all [isArrO]
      · split
        · simp_all [isArrO]
        · split
          · simp_all [isArrO]
          · rfl

/-- C10: a 2xx slots response whose extracted payload is neither an array
nor an object with an array under one of the recognized keys
(`slots`/`data`/`parking`/`parkingSlots`) produces the empty slot list,
not an error. -/
theorem fetchParkingSlots_unrecognized_payload_empty (body : Json)
    (h1 : isArrJ (extractData body) = false)
    (h2 : ∀ k ∈ recognizedSlotKeys, isArrO (getField (extractData body) k) = false) :
    fetchParkingSlotsData body = .ok [] := by
  unfold fetchParkingSlotsData
  rw [slotsArrayOf_eq_nil h1
    (h2 "slots" (by simp [recognizedSlotKeys]))
    (h2 "data" (by simp [recognizedSlotKeys]))
    (h2 "parking" (by simp [recognizedSlotKeys]))
    (h2 "parkingSlots" (by simp [recognizedSlotKeys]))]
  rfl

/-- C10 witness: a 2xx payload that is a plain object with no recognized
array key yields the empty slot list. -/
theorem fetchParkingSlots_unrecognized_payload_empty_witness :
    isArrJ (extractData (.obj [("count", .num 3)])) = false
    ∧ (∀ k ∈ recognizedSlotKeys,
        isArrO (getField (extractData (.obj [("count", .num 3)])) k) = false)
    ∧ fetchParkingSlotsData (.obj [("count", .num 3)]) = .ok [] := by
  refine ⟨rfl, by decide, ?_⟩
  exact fetchParkingSlots_unrecognized_payload_empty _ rfl (by decide)

/-! C8 -/

/-- C8: a payment initiated with method `card` sends
`payment_method = "credit_card"` in the outgoing pay body, and any other
method string is sent unchanged. -/
theorem payment_method_translation :
    (∀ p : PaymentPayload, (handlePaymentBody "card" p).payment_method = "credit_card")
    ∧ (∀ (m : String) (p : PaymentPayload), m ≠ "card" →
        (handlePaymentBody m p).payment_method = m) := by
  constructor
  · intro p; rfl
  · intro m p h
    simp [handlePaymentBody, processPaymentBody, paymentMethodValue, h]

/-- C8 witness: the translation at method `card` and the pass-through at
method `wallet`, on a concrete payload. -/
theorem payment_method_translation_witness :
    (handlePaymentBody "card" ⟨"s1", "g1", "u1", 10, "a", "b", 2, "card", none⟩).payment_method
        = "credit_card"
    ∧ ("wallet" ≠ "card")
    ∧ (handlePaymentBody "wallet"
        ⟨"s1", "g1", "u1", 10, "a", "b", 2, "wallet", none⟩).payment_method = "wallet" := by
  refine ⟨payment_method_translation.1 _, by decide, ?_⟩
  exact payment_method_translation.2 "wallet" _ (by decide)

/-! C6 -/

/-- C6: the bookings listing never propagates a failure.  A transport
error yields two empty buckets, and any error raised while processing a
response body (for example a malformed payload whose element throws
during normalization) also yields two empty buckets. -/
theorem fetchUserBookings_never_throws :
    (∀ (now e : String), fetchUserBookingsData now (.error e) = ⟨[], []⟩)
    ∧ (∀ (now : String) (body : Json) (msg : String),
        tryUserBookings now body = .error msg →
        fetchUserBookingsData now (.ok body) = ⟨[], []⟩) := by
  constructor
  · intro now e; rfl
  · intro now body msg h
    simp [fetchUserBookingsData, h]

/-- C6 witness: a payload whose `current` array contains `null` makes the
try block throw a TypeError, and the listing still returns two empty
buckets. -/
theorem fetchUserBookings_never_throws_witness :
    tryUserBookings "T" (.obj [("current", .arr [.null])]) = .error typeErrNull
    ∧ fetchUserBookingsData "T" (.ok (.obj [("current", .arr [.null])])) = ⟨[], []⟩
    ∧ fetchUserBookingsData "T" (.error "Network error. Check your connection") = ⟨[], []⟩ := by
  refine ⟨rfl, ?_, ?_⟩
  · exact fetchUserBookings_never_throws.2 "T" _ typeErrNull rfl
  · exact fetchUserBookings_never_throws.1 "T" _

/-! C3 -/

/-- C3 counterexample: a raw slot with no resolvable id does NOT fail
normalization — it is given the fabricated positional id `slot-1` — and a
booking payload nested under a `booking` key with no id does NOT fail
fetchBookingById — it is given the fabricated id string `undefined`. -/
theorem normalization_missing_id_counterexample :
    fetchParkingSlotsData (.arr [.obj []])
      = .ok [⟨"slot-1", "1", .available, some 0, .standard, some 5⟩]
    ∧ fetchBookingByIdData "T0" "7" (.obj [("booking", .obj [("garage_id", .num 5)])])
      = .ok ⟨"undefined", "5", "", "", .str "pending", some 0, "N/A",
          .str "T0", .str "T0", some 1, none, none⟩ := by
  exact ⟨rfl, rfl⟩

/-- C3 (amended): a slot whose id and slot_id cannot be resolved is
normalized with the fabricated positional id `slot-(index+1)` instead of
failing; fetchBookingById fails hard only when no booking object can be
located in the payload; and a booking located under a `booking` key whose
id field is absent is returned successfully with the fabricated id string
`undefined` (provided its garage id resolves non-empty). -/
theorem normalization_missing_id_defaults :
    (∀ (slot : Json) (i : Nat) (s : Slot), normalizeSlot slot i = .ok s →
      truthyO (getField slot "id") = false → truthyO (getField slot "slot_id") = false →
      s.id = "slot-" ++ toString (i + 1))
    ∧ (∀ (now idArg : String) (body : Json), rawBookingOf (extractData body) = none →
      fetchBookingByIdData now idArg body = .error ("Booking #" ++ idArg ++ " not found"))
    ∧ (∀ (now idArg : String) (inner : List (String × Json)),
      lookupField inner "id" = none →
      bookingGarageId (.obj inner) ≠ "" →
      fetchBookingByIdData now idArg (.obj [("booking", .obj inner)])
          = .ok (normalizeBookingById now (.obj inner))
        ∧ (normalizeBookingById now (.obj inner)).id = "undefined") := by
  refine ⟨?_, ?_, ?_⟩
  · intro slot i s h hid hsid
    simp only [normalizeSlot] at h
    split at h
    · exact absurd h (by simp)
    · split at h
      · have hs : s = _ := (Except.ok.inj h).symm
        rw [hs]
        show jsToString (firstTruthy [getField slot "id", getField slot "slot_id"]
          (.str ("slot-" ++ toString (i + 1)))) = "slot-" ++ toString (i + 1)
        rw [firstTruthy_cons_falsy hid, firstTruthy_cons_falsy hsid]
        rfl
      · exact absurd h (by simp)
  · intro now idArg body h
    simp [fetchBookingByIdData, h]
  · intro now idArg inner hid hgar
    have hraw : rawBookingOf (extractData (.obj [("booking", .obj inner)]))
        = some (.obj inner) := rfl
    have hbid : (normalizeBookingById now (.obj inner)).id = "undefined" := by
      show jsToStringO (getField (.obj inner) "id") = "undefined"
      show jsToStringO (lookupField inner "id") = "undefined"
      rw [hid]
      rfl
    refine ⟨?_, hbid⟩
    simp only [fetchBookingByIdData, hraw]
    rw [hbid]
    simp [hgar]
    exact hgar

/-- C3 witness: the slot default id at a concrete payload with no id, the
hard failure at a payload with no locatable booking, and the fabricated
`undefined` booking id at a concrete nested payload. -/
theorem normalization_missing_id_defaults_witness :
    (normalizeSlot (.obj [("number", .str "A1")]) 0
        = .ok ⟨"slot-1", "A1", .available, some 0, .standard, some 5⟩
      ∧ (⟨"slot-1", "A1", .available, some 0, .standard, some 5⟩ : Slot).id = "slot-1")
    ∧ fetchBookingByIdData "T1" "9" (.num 7) = .error "Booking #9 not found"
    ∧ fetchBookingByIdData "T1" "9" (.obj [("booking", .obj [("garage_id", .num 5)])])
        = .ok (normalizeBookingById "T1" (.obj [("garage_id", .num 5)]))
    ∧ (normalizeBookingById "T1" (.obj [("garage_id", .num 5)])).id = "undefined" := by
  have h3 := normalization_missing_id_defaults.2.2 "T1" "9" [("garage_id", .num 5)]
    rfl (by decide)
  refine ⟨⟨rfl, ?_⟩, ?_, h3.1, h3.2⟩
  · exact normalization_missing_id_defaults.1 (.obj [("number", .str "A1")]) 0 _ rfl rfl rfl
  · exact normalization_missing_id_defaults.2.1 "T1" "9" (.num 7) rfl

/-! C7 -/

/-- C7: for every user value `u` and token string `t`, a login response
body `{data: {data: {user: u, token: t}}}` normalizes to exactly the same
result as `{user: u, token: t}` — the same user/token pair on success and
the same error otherwise. -/
theorem login_envelope_equiv (u : Json) (t : String) :
    loginNormalize (mkNestedLogin u t) = loginNormalize (mkFlatLogin u t) := by
  rfl

/-! C5 -/

/-- Strict ascending order on defined (non-`NaN`) levels. -/
def keyLt : Option Int → Option Int → Bool
  | some x, some y => x < y
  | _, _ => false

theorem mem_mapKeysAux {x : Option Int} :
    ∀ (l acc : List (Option Int)), x ∈ mapKeysAux acc l ↔ x ∈ acc ∨ x ∈ l := by
  intro l
  induction l with
  | nil => intro acc; simp [mapKeysAux]
  | cons k rest ih =>
    intro acc
    simp only [mapKeysAux]
    rw [ih]
    by_cases hk : k ∈ acc
    · simp only [if_pos hk, List.mem_cons]
      constructor
      · rintro (h | h)
        · exact Or.inl h
        · exact Or.inr (Or.inr h)
      · rintro (h | h | h)
        · exact Or.inl h
        · exact Or.inl (h ▸ hk)
        · exact Or.inr h
    · simp only [if_neg hk, List.mem_append, List.mem_singleton, List.mem_cons]
      tauto

theorem mem_mapKeys {x : Option Int} {l : List (Option Int)} : x ∈ mapKeys l ↔ x ∈ l := by
  unfold mapKeys
  rw [mem_mapKeysAux]
  simp

theorem nodup_mapKeysAux :
    ∀ (l acc : List (Option Int)), acc.Nodup → (mapKeysAux acc l).Nodup := by
  intro l
  induction l with
  | nil => intro acc h; exact h
  | cons k rest ih =>
    intro acc h
    simp only [mapKeysAux]
    by_cases hk : k ∈ acc
    · rw [if_pos hk]; exact ih acc h
    · rw [if_neg hk]
      refine ih _ ?_
      rw [List.nodup_append]
      exact ⟨h, List.nodup_singleton k, by simpa using hk⟩

/-- The grouping/sorting/counting contract of the floor derivation for a
non-empty slot list with defined levels. -/
def FloorsSpec (slots : List Slot) : Prop :=
  ((fetchFloorsFromSlots slots).map Floor.level).Pairwise (fun a b => keyLt a b = true)
  ∧ (∀ f ∈ fetchFloorsFromSlots slots,
      f.layout = slots.filter (fun s => s.level == f.level)
      ∧ f.totalSlots = f.layout.length
      ∧ f.availableSlots
          = (f.layout.filter (fun s => s.status == SlotStatus.available)).length)
  ∧ (∀ s ∈ slots, ∃ f ∈ fetchFloorsFromSlots slots, f.level = s.level)

/-- C5: deriving floors from a non-empty slot list with integer levels
groups the slots by level (each floor's layout is exactly the original
slot list filtered to its level, in order), returns the floors in
strictly ascending level order, and sets each floor's availableSlots to
the count of its available-status slots; in particular, four slots at
levels 0, 0, 1, 2 yield exactly 3 floors at levels [0, 1, 2], with the
first floor's availableSlots equal to the number of available-status
slots among the two level-0 slots. -/
theorem fetchFloors_groups_sorted :
    (∀ slots : List Slot, slots ≠ [] → (∀ s ∈ slots, (Slot.level s).isSome = true) →
      FloorsSpec slots)
    ∧ (∀ s1 s2 s3 s4 : Slot, s1.level = some 0 → s2.level = some 0 →
        s3.level = some 1 → s4.level = some 2 →
        (fetchFloorsFromSlots [s1, s2, s3, s4]).map Floor.level = [some 0, some 1, some 2]
        ∧ (fetchFloorsFromSlots [s1, s2, s3, s4]).length = 3
        ∧ ((fetchFloorsFromSlots [s1, s2, s3, s4]).headD generalFloor).availableSlots
            = ([s1, s2].filter (fun s => s.status == SlotStatus.available)).length) := by
  constructor
  · intro slots hne hlv
    have hempty : slots.isEmpty = false := by
      cases slots with
      | nil => exact absurd rfl hne
      | cons a as => rfl
    have hunfold : fetchFloorsFromSlots slots
        = (List.insertionSort rLe (mapKeys (slots.map Slot.level))).map (mkFloorAt slots) := by
      simp [fetchFloorsFromSlots, hempty]
    have hmapeq : (fetchFloorsFromSlots slots).map Floor.level
        = List.insertionSort rLe (mapKeys (slots.map Slot.level)) := by
      rw [hunfold, List.map_map]
      have : (Floor.level ∘ mkFloorAt slots) = fun lv => lv := rfl
      rw [this, List.map_id']
    have hkeysnodup : (mapKeys (slots.map Slot.level)).Nodup :=
      nodup_mapKeysAux _ [] List.nodup_nil
    have hsknodup : (List.insertionSort rLe (mapKeys (slots.map Slot.level))).Nodup :=
      ((List.perm_insertionSort rLe _).nodup_iff).mpr hkeysnodup
    have hsorted : List.Sorted rLe (List.insertionSort rLe (mapKeys (slots.map Slot.level))) :=
      List.sorted_insertionSort rLe _
    have hskmem : ∀ k ∈ List.insertionSort rLe (mapKeys (slots.map Slot.level)),
        (k : Option Int).isSome = true := by
      intro k hk
      rw [List.mem_insertionSort] at hk
      rw [mem_mapKeys] at hk
      rcases List.mem_map.mp hk with ⟨s, hs, hks⟩
      exact hks ▸ hlv s hs
    refine ⟨?_, ?_, ?_⟩
    · rw [hmapeq]
      have hpw := hsorted.and hsknodup
      refine hpw.imp_of_mem ?_
      intro a b ha hb hab
      rcases Option.isSome_iff_exists.mp (hskmem a ha) with ⟨x, hx⟩
      rcases Option.isSome_iff_exists.mp (hskmem b hb) with ⟨y, hy⟩
      subst hx; subst hy
      rcases hab with ⟨hle, hnee⟩
      have hxy : x ≤ y := by simpa [rLe, keyLe] using hle
      have hxney : x ≠ y := fun h => hnee (by rw [h])
      simp [keyLt, lt_of_le_of_ne hxy hxney]
    · intro f hf
      rw [hunfold] at hf
      rcases List.mem_map.mp hf with ⟨lv, _, hflv⟩
      subst hflv
      exact ⟨rfl, rfl, rfl⟩
    · intro s hs
      refine ⟨mkFloorAt slots s.level, ?_, rfl⟩
      rw [hunfold]
      refine List.mem_map_of_mem _ ?_
      rw [List.mem_insertionSort, mem_mapKeys]
      exact List.mem_map_of_mem _ hs
  · intro s1 s2 s3 s4 h1 h2 h3 h4
    have hm : [s1, s2, s3, s4].map Slot.level = [some 0, some 0, some 1, some 2] := by
      simp [h1, h2, h3, h4]
    have hkeys : mapKeys ([s1, s2, s3, s4].map Slot.level) = [some 0, some 1, some 2] := by
      rw [hm]; decide
    have hsortk : List.insertionSort rLe [some 0, some 1, some 2]
        = [some 0, some 1, some 2] := by decide
    have hunfold : fetchFloorsFromSlots [s1, s2, s3, s4]
        = [mkFloorAt [s1, s2, s3, s4] (some 0), mkFloorAt [s1, s2, s3, s4] (some 1),
           mkFloorAt [s1, s2, s3, s4] (some 2)] := by
      simp only [fetchFloorsFromSlots, List.isEmpty_cons, Bool.false_eq_true, if_false]
      rw [hkeys, hsortk]
      rfl
    have e1 : ((some 0 : Option Int) == some 0) = true := by decide
    have e3 : ((some 1 : Option Int) == some 0) = false := by decide
    have e4 : ((some 2 : Option Int) == some 0) = false := by decide
    have hfil : [s1, s2, s3, s4].filter (fun s => s.level == some 0) = [s1, s2] := by
      simp only [List.filter, h1, h2, h3, h4, e1, e3, e4]
    refine ⟨?_, ?_, ?_⟩
    · rw [hunfold]; rfl
    · rw [hunfold]; rfl
    · rw [hunfold]
      show (mkFloorAt [s1, s2, s3, s4] (some 0)).availableSlots
        = ([s1, s2].filter (fun s => s.status == SlotStatus.available)).length
      simp only [mkFloorAt, hfil]

/-- C5 witness: the contract and the 0/0/1/2 shape at a concrete
four-slot list. -/
theorem fetchFloors_groups_sorted_witness :
    (([⟨"a", "1", .available, some 0, .standard, some 5⟩,
       ⟨"b", "2", .occupied, some 0, .standard, some 5⟩,
       ⟨"c", "3", .available, some 1, .standard, some 5⟩,
       ⟨"d", "4", .available, some 2, .standard, some 5⟩] : List Slot) ≠ [])
    ∧ FloorsSpec
        [⟨"a", "1", .available, some 0, .standard, some 5⟩,
         ⟨"b", "2", .occupied, some 0, .standard, some 5⟩,
         ⟨"c", "3", .available, some 1, .standard, some 5⟩,
         ⟨"d", "4", .available, some 2, .standard, some 5⟩]
    ∧ (fetchFloorsFromSlots
        [⟨"a", "1", .available, some 0, .standard, some 5⟩,
         ⟨"b", "2", .occupied, some 0, .standard, some 5⟩,
         ⟨"c", "3", .available, some 1, .standard, some 5⟩,
         ⟨"d", "4", .available, some 2, .standard, some 5⟩]).map Floor.level
        = [some 0, some 1, some 2] := by
  refine ⟨by decide, ?_, ?_⟩
  · exact fetchFloors_groups_sorted.1 _ (by decide) (by decide)
  · exact (fetchFloors_groups_sorted.2
      ⟨"a", "1", .available, some 0, .standard, some 5⟩
      ⟨"b", "2", .occupied, some 0, .standard, some 5⟩
      ⟨"c", "3", .available, some 1, .standard, some 5⟩
      ⟨"d", "4", .available, some 2, .standard, some 5⟩ rfl rfl rfl rfl).1

end CarPark
